import Mathlib

/-!
Verification of the asset merge/sync engine of the blender-studio-tools
repository, as a shallow embedding in Lean 4.

The embedding covers:
- `scripts-blender/addons/asset_pipeline/sync.py` (the sync state machine:
  poll, invoke, prepare, pull, push), modelled as pure functions over an
  explicit context/state, with host-side effects (file load/save, object
  removal, merges, reports) recorded as an explicit event trace;
- `scripts-blender/addons/asset_pipeline/merge/transfer_data/transfer_functions/materials.py`
  (the materials data channel: ownership init, clean, transfer);
- `blender_studio_pipeline/asset_pipeline/builder/asset_builder.py`
  (`AssetBuilder.publish` and `_create_first_version`), with filesystem and
  process effects as an event trace;
- `blender_studio_pipeline/asset_pipeline/builder/task_layer.py`
  (`TaskLayer`, `TaskLayerConfig`, `TaskLayerAssembly`).

Functions of the repository that the embedded code calls but whose modules are
not part of the source tree under inspection (e.g. `merge_task_layer`,
`get_invalid_objects`, `find_sync_target`) are taken as parameters of the
embedded functions, or modelled from the specification where the claim needs
their behaviour (such definitions are marked `Modelled from the spec:`).
-/

namespace AssetPipeline

/-! ## Blender data model (the slice the sync code touches) -/

/-- An image data-block: `bpy.data.images` entries expose `is_dirty`. -/
structure Image where
  name : String
  is_dirty : Bool
  deriving Repr, DecidableEq

/-- The slice of `bpy.data` read by `sync_poll`: the image data-blocks and the
dirty flag of the current blend file. -/
structure BlendData where
  images : List Image
  is_dirty : Bool
  deriving Repr, DecidableEq

/-- Embedding of `sync_poll` from `sync.py`: returns `False` with a poll message if any
image is dirty or the blend file is dirty, `True` (and no message) otherwise.
The returned pair is (poll result, message passed to `poll_message_set`). -/
def sync_poll (data : BlendData) : Bool × Option String :=
  if data.images.any (fun img => img.is_dirty) then
    (false, some "Please save unsaved Images")
  else if data.is_dirty then
    (false, some "Please save current .blend file")
  else
    (true, none)

/-! ## The sync state machine (`sync.py`) -/

/-- One entry of `scene.asset_pipeline.temp_transfer_data`: a transfer-data
ownership item together with the object it belongs to. -/
structure TempTransferDataItem where
  name : String
  owner : String
  type : String
  obj_name : String
  surrender : Bool
  deriving Repr, DecidableEq

/-- The slice of the `scene.asset_pipeline` property group that `sync.py`
reads and writes. `local_task_layers` is the result of
`get_local_task_layers()`. -/
structure AssetPipe where
  asset_collection : Option String
  local_task_layers : List String
  sync_error : Bool
  temp_file : String
  source_file : String
  is_depreciated : Bool
  temp_transfer_data : List TempTransferDataItem
  deriving Repr, DecidableEq

/-- The state visible to the sync functions through `context` / `bpy.data`:
the scene's asset-pipeline properties, the path of the open blend file,
`Path(bpy.app.tempdir).parent`, and the names of the objects in the file. -/
structure Context where
  asset_pipe : AssetPipe
  filepath : String
  tempdir_parent : String
  objects : List String
  deriving Repr, DecidableEq

/-- The mutable state the sync operator keeps on `self` across the invoke /
prepare / pull / push steps. -/
structure SyncOp where
  invalid_objs : List String
  shared_ids : List String
  task_layer_keys : List String
  current_file : String
  temp_dir : String
  sync_target : String
  deriving Repr, DecidableEq

/-- Host-side effects performed by the sync functions, in order. -/
inductive SyncEvent where
  | report (level msg : String)
  | removeObject (name : String)
  | saveMainfileCopy (filepath : String)
  | openMainfile (filepath : String)
  | saveMainfile (filepath : String)
  | mergeTaskLayer (local_tls : List String) (external_file : String)
      (file_objects : List String)
  deriving Repr, DecidableEq

/-- Holds exactly on the backup-copy save event
(`bpy.ops.wm.save_as_mainfile(filepath=..., copy=True)`). -/
def SyncEvent.isSaveCopy : SyncEvent → Bool
  | .saveMainfileCopy _ => true
  | _ => false

/-- Embedding of `sync_invoke` from `sync.py`: clears the temp transfer data and the
invalid-object list, cancels when the asset collection is missing, then runs
`ownership_get`, `get_invalid_objects` and `init_shared_ids`. The callees
live in modules outside the inspected sources and are taken as parameters.
Returns the updated context and operator state, the event trace, and whether
the invoke was cancelled. -/
def sync_invoke (ownership_get : String → Context → List TempTransferDataItem)
    (get_invalid_objects : AssetPipe → String → List String)
    (init_shared_ids : Context → List String)
    (ctx : Context) (op : SyncOp) : Context × SyncOp × List SyncEvent × Bool :=
  let ctx1 : Context :=
    { ctx with asset_pipe := { ctx.asset_pipe with temp_transfer_data := [] } }
  let op1 : SyncOp := { op with invalid_objs := [] }
  match ctx1.asset_pipe.asset_collection with
  | none =>
      (ctx1, op1, [.report "ERROR" "Top level collection could not be found"], true)
  | some local_col =>
      let temp := ownership_get local_col ctx1
      let ctx2 : Context :=
        { ctx1 with asset_pipe := { ctx1.asset_pipe with temp_transfer_data := temp } }
      let op2 : SyncOp :=
        { op1 with invalid_objs := get_invalid_objects ctx2.asset_pipe local_col,
                   shared_ids := init_shared_ids ctx2 }
      (ctx2, op2, [], false)

/-- Embedding of `sync_execute_prepare_sync` from `sync.py`: records the current file, the
temp dir and the local task layers on the operator, determines the sync
target via `find_sync_target` (a callee outside the inspected sources, taken
as a parameter, together with the filesystem existence test), cancels when
the target does not exist, and otherwise removes every invalid object from
the file. -/
def sync_execute_prepare_sync (find_sync_target : String → String)
    (file_exists : String → Bool)
    (ctx : Context) (op : SyncOp) : Context × SyncOp × List SyncEvent × Bool :=
  let op1 : SyncOp :=
    { op with current_file := ctx.filepath,
              temp_dir := ctx.tempdir_parent,
              task_layer_keys := ctx.asset_pipe.local_task_layers,
              sync_target := find_sync_target ctx.filepath }
  if !file_exists op1.sync_target then
    (ctx, op1, [.report "ERROR" "Sync Target could not be determined"], true)
  else
    let ctx1 : Context :=
      { ctx with objects := ctx.objects.filter (fun o => !op1.invalid_objs.contains o) }
    (ctx1, op1, op1.invalid_objs.map .removeObject, false)

/-- Split a character list on `'/'` (accumulator holds the current segment,
reversed). -/
def splitSlash : List Char → List Char → List String
  | [], acc => [⟨acc.reverse⟩]
  | c :: cs, acc =>
      if c = '/' then ⟨acc.reverse⟩ :: splitSlash cs []
      else splitSlash cs (c :: acc)

/-- Does `pat` occur at the start of `s`? -/
def startsWithChars : List Char → List Char → Bool
  | [], _ => true
  | _ :: _, [] => false
  | p :: ps, c :: cs => p = c && startsWithChars ps cs

/-- Replace every occurrence of `pat` in the character list by `repl`,
left to right (`str.replace` of Python); the fuel argument makes the
recursion structural. -/
def replaceChars (pat repl : List Char) : Nat → List Char → List Char
  | 0, s => s
  | _ + 1, [] => []
  | fuel + 1, c :: cs =>
      if pat ≠ [] && startsWithChars pat (c :: cs) then
        repl ++ replaceChars pat repl fuel (cs.drop (pat.length - 1))
      else c :: replaceChars pat repl fuel cs

/-- Python's `s.replace(pat, repl)`. -/
def stringReplace (s pat repl : String) : String :=
  ⟨replaceChars pat.toList repl.toList s.toList.length s.toList⟩

/-- Python's `Path(p).name`: the last path component. -/
def pathName (p : String) : String :=
  (splitSlash p.toList []).getLast?.getD p

/-- Embedding of `create_temp_file_backup` from `sync.py`: computes the backup file path
inside the temp dir and records it in `scene.asset_pipeline.temp_file`.
It does not itself write any file. -/
def create_temp_file_backup (ctx : Context) (op : SyncOp) : Context × String :=
  let temp_file :=
    op.temp_dir ++ "/" ++ (stringReplace (pathName op.current_file) ".blend" ""
      ++ "_Asset_Pipe_Backup.blend")
  ({ ctx with asset_pipe := { ctx.asset_pipe with temp_file := temp_file } }, temp_file)

/-- Embedding of `update_temp_file_paths` from `sync.py`: records the backup path and the
source (working) file path on the scene's asset-pipeline properties. -/
def update_temp_file_paths (ctx : Context) (op : SyncOp)
    (temp_file_path : String) : Context :=
  { ctx with asset_pipe :=
      { ctx.asset_pipe with temp_file := temp_file_path,
                            source_file := op.current_file } }

/-- Embedding of `sync_execute_pull` from `sync.py`. `merge_task_layer` lives in
`merge/core.py`, outside the inspected sources; it is taken as a parameter
mapping (open file, local_tls, external_file) to its error message, with `""`
standing for the `None` of a successful merge (the code tests the message for
truthiness). The merge event records the objects present in the open file. -/
def sync_execute_pull (merge_task_layer : String → List String → String → String)
    (ctx : Context) (op : SyncOp) : Context × List SyncEvent × Bool :=
  let ctx1 := (create_temp_file_backup ctx op).1
  let temp_file_path := (create_temp_file_backup ctx op).2
  let ctx2 := update_temp_file_paths ctx1 op temp_file_path
  let backupEv := SyncEvent.saveMainfileCopy temp_file_path
  let error_msg := merge_task_layer ctx2.filepath op.task_layer_keys op.sync_target
  let mergeEv := SyncEvent.mergeTaskLayer op.task_layer_keys op.sync_target ctx2.objects
  if !error_msg.isEmpty then
    ({ ctx2 with asset_pipe := { ctx2.asset_pipe with sync_error := true } },
     [backupEv, mergeEv, .report "ERROR" error_msg], true)
  else
    (ctx2, [backupEv, mergeEv], false)

/-- The on-disk content of a blend file, as far as `sync_execute_push` looks
at one after `bpy.ops.wm.open_mainfile`: its scene's asset-pipeline
properties and its objects. -/
structure PublishFile where
  asset_pipe : AssetPipe
  objects : List String
  deriving Repr, DecidableEq

/-- Loading a file from disk replaces the in-memory context. -/
def openFile (world : String → PublishFile) (tempdir_parent : String)
    (file : String) : Context :=
  { asset_pipe := (world file).asset_pipe,
    filepath := file,
    tempdir_parent := tempdir_parent,
    objects := (world file).objects }

/-- The `for file in push_targets` loop of `sync_execute_push`: open the
publish, record the temp paths on its scene, skip it when depreciated,
otherwise merge the complement task layers from the working file, cancel on a
merge error, and on success save the publish and reopen the working file. -/
def push_loop (world : String → PublishFile)
    (merge_task_layer : String → List String → String → String)
    (task_layer_types : List String) (op : SyncOp) (temp_file_path : String) :
    Context → List String → Context × List SyncEvent × Bool
  | ctx, [] => (ctx, [], false)
  | ctx, file :: rest =>
    let ctxF := openFile world ctx.tempdir_parent file
    let ctxF1 := update_temp_file_paths ctxF op temp_file_path
    if ctxF1.asset_pipe.is_depreciated then
      let r := push_loop world merge_task_layer task_layer_types op temp_file_path ctxF1 rest
      (r.1, .openMainfile file :: r.2.1, r.2.2)
    else
      let local_tls := task_layer_types.filter
        (fun task_layer => !op.task_layer_keys.contains task_layer)
      let error_msg := merge_task_layer file local_tls op.current_file
      let mergeEv := SyncEvent.mergeTaskLayer local_tls op.current_file ctxF1.objects
      if !error_msg.isEmpty then
        ({ ctxF1 with asset_pipe := { ctxF1.asset_pipe with sync_error := true } },
         [.openMainfile file, mergeEv, .report "ERROR" error_msg], true)
      else
        let ctxW := openFile world ctxF1.tempdir_parent op.current_file
        let r := push_loop world merge_task_layer task_layer_types op temp_file_path ctxW rest
        (r.1, .openMainfile file :: mergeEv :: .saveMainfile file
          :: .openMainfile op.current_file :: r.2.1, r.2.2)

/-- Embedding of `sync_execute_push` from `sync.py`: computes the backup path, collects
the push targets (`find_all_published`, a callee outside the inspected
sources, taken as the list it returns, plus the sync target when absent), and
runs the push loop over them. -/
def sync_execute_push (world : String → PublishFile)
    (find_all_published : List String)
    (merge_task_layer : String → List String → String → String)
    (task_layer_types : List String)
    (ctx : Context) (op : SyncOp) : Context × List SyncEvent × Bool :=
  let ctx0 := (create_temp_file_backup ctx op).1
  let temp_file_path := (create_temp_file_backup ctx op).2
  let push_targets :=
    if find_all_published.contains op.sync_target then find_all_published
    else find_all_published ++ [op.sync_target]
  push_loop world merge_task_layer task_layer_types op temp_file_path ctx0 push_targets

/-! ## The materials data channel
(`merge/transfer_data/transfer_functions/materials.py`) -/

/-- The distinguished key of the material-slot data channel
(`constants.MATERIAL_SLOT_KEY`; `constants.py` is not among the inspected
sources — only the key's identity matters to the claims). -/
def MATERIAL_SLOT_KEY : String := "MATERIAL_SLOT"

/-- The fixed entry name of the material ownership item
(`constants.MATERIAL_TRANSFER_DATA_ITEM_NAME`). -/
def MATERIAL_TRANSFER_DATA_ITEM_NAME : String := "All Materials"

/-- The name of the material-index attribute
(`constants.MATERIAL_ATTRIBUTE_NAME`). -/
def MATERIAL_ATTRIBUTE_NAME : String := "material_index"

/-- One entry of an object's `transfer_data_ownership` property group: a
data-channel ownership record with a task-layer owner and a surrender flag. -/
structure TransferDataItem where
  name : String
  owner : String
  type : String
  surrender : Bool
  deriving Repr, DecidableEq

/-- A material slot: the assigned material (possibly empty) and its link
(`'DATA'` or `'OBJECT'`). -/
structure MaterialSlot where
  material : Option String
  link : String
  deriving Repr, DecidableEq

/-- The slice of a Blender object that the materials transfer functions
touch. `has_data` is `obj.data is not None`; `data_has_materials` is
`hasattr(obj.data, 'materials')`; `splines_material_index` are the
`material_index` values of the curve's splines; `attributes` are the named
data attributes; `active_color_name` is `""` when unset. -/
structure Obj where
  name : String
  type : String
  transfer_data_ownership : List TransferDataItem
  has_data : Bool
  data_has_materials : Bool
  material_slots : List MaterialSlot
  active_material_index : Nat
  splines_material_index : List Nat
  attributes : List (String × Nat)
  color_attributes : List String
  active_color_name : String
  uv_layers : List String
  active_uv : Option String
  deriving Repr, DecidableEq

/-- Modelled from the spec: `check_transfer_data_entry` (from
`merge/transfer_data/transfer_util.py`, which is not among the inspected
sources) returns the matches among the object's transfer-data ownership
entries for the given entry name and channel type key — ownership is tracked
per data channel ("materials, vertex groups, modifiers, etc.") per object. -/
def check_transfer_data_entry (transfer_data : List TransferDataItem)
    (key td_type_key : String) : List TransferDataItem :=
  transfer_data.filter (fun td => td.type == td_type_key && td.name == key)

/-- Embedding of `materials_clean` from `materials.py`: when no material ownership entry
exists on the object, clear its materials (when it has data carrying
materials); otherwise leave the object untouched. -/
def materials_clean (obj : Obj) : Obj :=
  let entry_matches := check_transfer_data_entry obj.transfer_data_ownership
    MATERIAL_TRANSFER_DATA_ITEM_NAME MATERIAL_SLOT_KEY
  if entry_matches.length ≠ 0 then obj
  else if obj.has_data && obj.data_has_materials then
    { obj with material_slots := [] }
  else obj

/-- The object types that can carry material slots (the `material_objects`
list inside `init_materials`). -/
def material_objects : List String :=
  ["CURVE", "GPENCIL", "META", "MESH", "SURFACE", "FONT", "VOLUME"]

/-- Embedding of `init_materials` from `materials.py`: on an object of a type that can
carry material slots, add a temp material ownership entry (owner and
surrender flag from `get_transfer_data_owner`, whose module is not among the
inspected sources and is taken as a parameter) only when
`check_transfer_data_entry` finds zero existing entries. -/
def init_materials (get_transfer_data_owner : AssetPipe → String → String × Bool)
    (asset_pipe : AssetPipe) (obj : Obj) : AssetPipe :=
  let td_type_key := MATERIAL_SLOT_KEY
  let entry_name := MATERIAL_TRANSFER_DATA_ITEM_NAME
  if !material_objects.contains obj.type then asset_pipe
  else
    let entry_matches := check_transfer_data_entry obj.transfer_data_ownership
      entry_name td_type_key
    if entry_matches.length == 0 then
      let task_layer_owner := (get_transfer_data_owner asset_pipe td_type_key).1
      let auto_surrender := (get_transfer_data_owner asset_pipe td_type_key).2
      { asset_pipe with temp_transfer_data := asset_pipe.temp_transfer_data ++
          [{ name := entry_name, owner := task_layer_owner, type := td_type_key,
             obj_name := obj.name, surrender := auto_surrender }] }
    else asset_pipe

/-- Modelled from the spec: `transfer_attribute` (from `attributes.py`, which
is not among the inspected sources) copies the named data attribute from the
source object onto the target object. -/
def transfer_attribute (attr_name : String) (target_obj source_obj : Obj) : Obj :=
  match source_obj.attributes.find? (fun a => a.1 == attr_name) with
  | none => target_obj
  | some a =>
      { target_obj with attributes :=
          target_obj.attributes.filter (fun b => b.1 != attr_name) ++ [a] }

/-- Embedding of `transfer_active_color_attribute_index` from `materials.py`: make the
target's active color attribute the one named like the source's, when the
source has one and the target carries an attribute of that name. -/
def transfer_active_color_attribute_index (source_obj target_obj : Obj) : Obj :=
  let active_color_name := source_obj.active_color_name
  if active_color_name == "" then target_obj
  else if target_obj.color_attributes.contains active_color_name then
    { target_obj with active_color_name := active_color_name }
  else target_obj

/-- Embedding of `transfer_active_uv_layer_index` from `materials.py`: make the target's
active UV layer the one named like the source's active UV layer, when the
source has one and the target carries a layer of that name. -/
def transfer_active_uv_layer_index (source_obj target_obj : Obj) : Obj :=
  match source_obj.active_uv with
  | none => target_obj
  | some active_name =>
      if target_obj.uv_layers.contains active_name then
        { target_obj with active_uv := some active_name }
      else target_obj

/-- Pointwise `zip(target, source)`-style overwrite of the curve splines' material
indices: positions covered by the source take the source's value, the rest
keep the target's. -/
def zipSplineMaterialIndex (tgt src : List Nat) : List Nat :=
  (tgt.zip src).map (fun p => p.2) ++ tgt.drop src.length

/-- Embedding of `transfer_materials` from `materials.py`: clear the target's material
slots and rebuild them from the source (materials and links), copy the
active material index, the curve splines' material indices, the
material-index attribute when the source has it, and the active color / UV
layer choices. -/
def transfer_materials (target_obj source_obj : Obj) : Obj :=
  let t1 : Obj := { target_obj with
    material_slots := source_obj.material_slots,
    active_material_index := source_obj.active_material_index }
  let newSplines :=
    zipSplineMaterialIndex t1.splines_material_index
      source_obj.splines_material_index
  let t2 : Obj :=
    if t1.type == "CURVE" then { t1 with splines_material_index := newSplines }
    else t1
  let t3 : Obj :=
    if (source_obj.attributes.find? (fun a => a.1 == MATERIAL_ATTRIBUTE_NAME)).isSome
    then transfer_attribute MATERIAL_ATTRIBUTE_NAME t2 source_obj
    else t2
  let t4 := transfer_active_color_attribute_index source_obj t3
  transfer_active_uv_layer_index source_obj t4

/-- Modelled from the spec: the merge core (`merge/core.py` and
`transfer_data/transfer_core.py`, which are not among the inspected sources)
invokes a channel's transfer function on an object only for transfer-data
ownership entries owned by one of the transplanted (local) task layers —
"publishing/pulling must transplant only the owned subsets between a working
file and a published file while preserving everything else". For the
materials channel this applies `transfer_materials` exactly when the
object's material ownership entry is owned by a transplanted task layer. -/
def apply_material_transfer (local_tls : List String)
    (target_obj source_obj : Obj) : Obj :=
  if (check_transfer_data_entry source_obj.transfer_data_ownership
        MATERIAL_TRANSFER_DATA_ITEM_NAME MATERIAL_SLOT_KEY).any
      (fun td => local_tls.contains td.owner) then
    transfer_materials target_obj source_obj
  else target_obj

/-- The number of material-channel ownership entries recorded for an object:
the entries on the object's own `transfer_data_ownership` plus the matching
temp transfer-data entries held on the scene. -/
def materialOwnershipCount (asset_pipe : AssetPipe) (obj : Obj) : Nat :=
  (check_transfer_data_entry obj.transfer_data_ownership
    MATERIAL_TRANSFER_DATA_ITEM_NAME MATERIAL_SLOT_KEY).length +
  (asset_pipe.temp_transfer_data.filter (fun td =>
    td.obj_name == obj.name && td.type == MATERIAL_SLOT_KEY &&
    td.name == MATERIAL_TRANSFER_DATA_ITEM_NAME)).length

/-- The events one iteration of the push loop contributes for a given file:
a depreciated publish is only opened; any other publish is opened, merged
with the complement task layers, saved, and followed by a reopen of the
working file. -/
def pushStepTrace (world : String → PublishFile) (op : SyncOp)
    (task_layer_types : List String) (file : String) : List SyncEvent :=
  if (world file).asset_pipe.is_depreciated then [.openMainfile file]
  else
    [.openMainfile file,
     .mergeTaskLayer
       (task_layer_types.filter (fun t => !op.task_layer_keys.contains t))
       op.current_file (world file).objects,
     .saveMainfile file,
     .openMainfile op.current_file]

/-! ### Concrete instances used to exercise the sync functions -/

/-- A concrete scene property group of a working file owning the Modeling
task layer. -/
def apWorking : AssetPipe :=
  { asset_collection := some "CH-char", local_task_layers := ["Modeling"],
    sync_error := false, temp_file := "", source_file := "",
    is_depreciated := false, temp_transfer_data := [] }

/-- A concrete working-file context. -/
def ctxWorking : Context :=
  { asset_pipe := apWorking, filepath := "/w/char.modeling.blend",
    tempdir_parent := "/tmp", objects := ["Cube"] }

/-- A fresh operator state. -/
def opFresh : SyncOp :=
  { invalid_objs := [], shared_ids := [], task_layer_keys := [],
    current_file := "", temp_dir := "", sync_target := "" }

/-- The operator state after a successful prepare on `ctxWorking`. -/
def opPrepared : SyncOp :=
  { invalid_objs := [], shared_ids := [], task_layer_keys := ["Modeling"],
    current_file := "/w/char.modeling.blend", temp_dir := "/tmp",
    sync_target := "/pub/char.v001.blend" }

/-- A concrete world of on-disk files: the working file and one active
publish, neither depreciated. -/
def worldPlain : String → PublishFile := fun _ =>
  { asset_pipe := apWorking, objects := ["Cube"] }

/-- A concrete world in which the publish `/pub/char.v002.blend` is marked
depreciated. -/
def worldDepreciated : String → PublishFile := fun p =>
  if p == "/pub/char.v002.blend" then
    { asset_pipe := { apWorking with is_depreciated := true }, objects := ["Cube"] }
  else { asset_pipe := apWorking, objects := ["Cube"] }

/-- A concrete working-file context that still contains an invalid object. -/
def ctxWithBad : Context :=
  { asset_pipe := apWorking, filepath := "/w/char.modeling.blend",
    tempdir_parent := "/tmp", objects := ["Cube", "BAD"] }

/-- The operator state after `sync_invoke` found the invalid object `BAD`. -/
def opInvoked : SyncOp :=
  { invalid_objs := ["BAD"], shared_ids := [], task_layer_keys := [],
    current_file := "", temp_dir := "", sync_target := "" }

/-- The operator state after prepare ran on `ctxWithBad` with the invalid
object recorded. -/
def opPreparedBad : SyncOp :=
  { invalid_objs := ["BAD"], shared_ids := [], task_layer_keys := ["Modeling"],
    current_file := "/w/char.modeling.blend", temp_dir := "/tmp",
    sync_target := "/pub/char.v001.blend" }

/-- The context `ctxWithBad` after prepare removed the invalid object. -/
def ctxCleaned : Context :=
  { asset_pipe := apWorking, filepath := "/w/char.modeling.blend",
    tempdir_parent := "/tmp", objects := ["Cube"] }

end AssetPipeline

namespace Builder

/-! ## The asset builder
(`blender_studio_pipeline/asset_pipeline/builder/asset_builder.py`) -/

/-- The slice of the asset task that `AssetBuilder.publish` uses. -/
structure AssetTask where
  path : String
  pickle_path : String
  deriving Repr, DecidableEq

/-- An existing asset publish. -/
structure AssetPublish where
  path : String
  deriving Repr, DecidableEq

/-- The slice of `BuildContext` that `publish` / `_create_first_version`
read: the existing asset publishes, the asset task (with its pickle path),
`asset_dir.get_first_publish_path()` and the asset collection of the asset
context. -/
structure BuildContext where
  asset_publishes : List AssetPublish
  asset_task : AssetTask
  first_publish_path : String
  asset_collection : String
  deriving Repr, DecidableEq

/-- Filesystem and process effects performed by the builder, in order. -/
inductive BuilderEvent where
  | pickleDump (path : String)
  | startPublish (publish_path pickle_path : String)
  | mkdirParents (dir : String)
  | librariesWrite (path : String) (data_blocks : List String)
      (path_remap : String) (fake_user : Bool)
  deriving Repr, DecidableEq

/-- Join path segments with `'/'`. -/
def joinSlash : List String → String
  | [] => ""
  | [s] => s
  | s :: rest => s ++ "/" ++ joinSlash rest

/-- Python's `Path(p).parent`: the path with its last component dropped. -/
def pathParent (p : String) : String :=
  joinSlash (AssetPipeline.splitSlash p.toList []).dropLast

/-- Embedding of `AssetBuilder._create_first_version`: create the parent directory of the
first publish path if needed, then write the asset collection there with
relative path remapping and fake user set. -/
def create_first_version (bc : BuildContext) : List BuilderEvent :=
  let target := bc.first_publish_path
  [.mkdirParents (pathParent target),
   .librariesWrite target [bc.asset_collection] "RELATIVE_ALL" true]

/-- Embedding of `AssetBuilder.publish`: with no existing asset publishes, take the
first-version path; otherwise pickle the whole `BuildContext` to the asset
task's pickle path and start a second Blender instance
(`BuilderBlenderStarter.start_publish`, whose module is not among the
inspected sources) on the first asset publish's path, handing it the pickle
path. -/
def publish (bc : BuildContext) : List BuilderEvent :=
  match bc.asset_publishes with
  | [] => create_first_version bc
  | first :: _ =>
      [.pickleDump bc.asset_task.pickle_path,
       .startPublish first.path bc.asset_task.pickle_path]

/-! ## Task layers
(`blender_studio_pipeline/asset_pipeline/builder/task_layer.py`) -/

/-- The per-instance state set by `TaskLayer.__init__`: the source path and
revision, and the `is_locked` locking flag. -/
structure TaskLayerState where
  source_path : String
  source_revision : String
  is_locked : Bool
  deriving Repr, DecidableEq

/-- Embedding of `TaskLayer.__init__`: a fresh task layer has empty source path and
revision and is not locked. -/
def TaskLayer.init : TaskLayerState :=
  { source_path := "", source_revision := "", is_locked := false }

/-- The class-level data of a `TaskLayer` subclass: its Python class name
(`__name__`), its display name and its order. -/
structure TaskLayerClass where
  cls_name : String
  name : String
  order : Int
  deriving Repr, DecidableEq

/-- Embedding of `TaskLayerConfig`: a task layer together with its `use` flag (fresh
configs have `use = False`). -/
structure TaskLayerConfig where
  task_layer : TaskLayerClass
  use : Bool
  deriving Repr, DecidableEq

/-- The state built by `TaskLayerAssembly.__init__`: the per-class-name
config dictionary (kept as an insertion-ordered association list), the task
layers and the config list, the latter two sorted by order. -/
structure TaskLayerAssembly where
  task_layer_config_dict : List (String × TaskLayerConfig)
  task_layers : List TaskLayerClass
  task_layer_configs : List TaskLayerConfig
  deriving Repr, DecidableEq

/-- The `for task_layer in task_layers` loop of `TaskLayerAssembly.__init__`:
build the config dict and config list; on a duplicate class name, clear the
dict and raise. The error value carries the message and the dict as left
behind by the raise. -/
def assembleConfigs : List (String × TaskLayerConfig) → List TaskLayerConfig →
    List TaskLayerClass →
    Except (String × List (String × TaskLayerConfig))
      (List (String × TaskLayerConfig) × List TaskLayerConfig)
  | dict, configs, [] => .ok (dict, configs)
  | dict, configs, task_layer :: rest =>
      if dict.any (fun p => p.1 == task_layer.cls_name) then
        .error ("Detected 2 TaskLayers with the same Class name. ["
          ++ task_layer.cls_name ++ "]", [])
      else
        assembleConfigs (dict ++ [(task_layer.cls_name, ⟨task_layer, false⟩)])
          (configs ++ [⟨task_layer, false⟩]) rest

/-- Embedding of `TaskLayerAssembly.__init__`: run the assembly loop, then sort the config
list and the task-layer list by order. An exception is an `.error` carrying
the message and the dict state at the raise. -/
def TaskLayerAssembly.init (task_layers : List TaskLayerClass) :
    Except (String × List (String × TaskLayerConfig)) TaskLayerAssembly :=
  match assembleConfigs [] [] task_layers with
  | .error e => .error e
  | .ok (dict, configs) =>
      .ok { task_layer_config_dict := dict,
            task_layers :=
              task_layers.mergeSort (fun a b => a.order ≤ b.order),
            task_layer_configs :=
              configs.mergeSort (fun a b => a.task_layer.order ≤ b.task_layer.order) }

/-- Embedding of `TaskLayerAssembly.__bool__`: the truth value of the config dict. -/
def configDictBool (dict : List (String × TaskLayerConfig)) : Bool :=
  !dict.isEmpty

end Builder

open AssetPipeline Builder

/-! ## Claim theorems -/

/-- C9: `sync_poll` returns `True` if and only if no image data-block is dirty
and the blend file itself is not dirty; whenever it returns `False` it sets a
poll message naming the unsaved data (the unsaved images when some image is
dirty, otherwise the unsaved blend file). -/
theorem sync_poll_true_iff_fully_saved (data : BlendData) :
    ((sync_poll data).1 = true ↔
      ((∀ img ∈ data.images, img.is_dirty = false) ∧ data.is_dirty = false)) ∧
    ((sync_poll data).1 = false →
      (sync_poll data).2 =
        some (if data.images.any (fun img => img.is_dirty) then
                "Please save unsaved Images"
              else "Please save current .blend file")) := by
  unfold sync_poll
  cases h1 : data.images.any (fun img => img.is_dirty) with
  | true =>
      obtain ⟨x, hx, hd⟩ := List.any_eq_true.mp h1
      simp only [h1, if_true]
      constructor
      · simp only [Bool.false_eq_true, false_iff, not_and]
        intro hall
        exact absurd (hall x hx) (by simp [hd])
      · intro _
        trivial
  | false =>
      have hall := List.any_eq_false.mp h1
      cases h2 : data.is_dirty with
      | true =>
          simp only [h1, h2, Bool.false_eq_true, if_false, if_true]
          constructor
          · simp only [Bool.false_eq_true, false_iff, not_and]
            intro _
            simp
          · intro _
            trivial
      | false =>
          simp only [h1, h2, Bool.false_eq_true, if_false]
          constructor
          · simp only [true_iff]
            exact ⟨fun img hi => by simpa using hall img hi, trivial⟩
          · intro hcontra
            cases hcontra

/-- C3: when the build context has at least one existing asset publish,
`AssetBuilder.publish` pickles the whole `BuildContext` to the asset task's
pickle path and then starts a second host instance on the first asset
publish's path, handing it that same pickle path — and performs no other
effect, so the two processes coordinate only through the pickled file. -/
theorem publish_pickles_then_spawns (bc : BuildContext)
    (first : AssetPublish) (rest : List AssetPublish)
    (h : bc.asset_publishes = first :: rest) :
    Builder.publish bc =
      [.pickleDump bc.asset_task.pickle_path,
       .startPublish first.path bc.asset_task.pickle_path] := by
  unfold Builder.publish
  rw [h]

/-- Witness for C3: a concrete build context with one existing publish. -/
theorem publish_pickles_then_spawns_witness :
    Builder.publish
      { asset_publishes := [{ path := "/pub/char.v001.blend" }],
        asset_task := { path := "/task/char.blend", pickle_path := "/task/char.pickle" },
        first_publish_path := "/pub/char.v001.blend",
        asset_collection := "CH-char" } =
      [.pickleDump "/task/char.pickle",
       .startPublish "/pub/char.v001.blend" "/task/char.pickle"] :=
  publish_pickles_then_spawns _ { path := "/pub/char.v001.blend" } [] rfl

/-- C10: when the build context contains no existing asset publishes,
`AssetBuilder.publish` takes the first-version path: it creates the parent
directory of the first publish path, writes the asset collection there with
relative path remapping and fake user set, and performs neither the pickling
of the build context nor the spawn of a second host instance. -/
theorem publish_first_version_path (bc : BuildContext)
    (h : bc.asset_publishes = []) :
    Builder.publish bc =
      [.mkdirParents (pathParent bc.first_publish_path),
       .librariesWrite bc.first_publish_path [bc.asset_collection]
         "RELATIVE_ALL" true] ∧
    ∀ e ∈ Builder.publish bc,
      (∀ p, e ≠ .pickleDump p) ∧ (∀ p q, e ≠ .startPublish p q) := by
  have hpub : Builder.publish bc =
      [.mkdirParents (pathParent bc.first_publish_path),
       .librariesWrite bc.first_publish_path [bc.asset_collection]
         "RELATIVE_ALL" true] := by
    unfold Builder.publish
    rw [h]
    rfl
  refine ⟨hpub, ?_⟩
  rw [hpub]
  intro e he
  simp only [List.mem_cons, List.not_mem_nil, or_false] at he
  rcases he with he | he <;> subst he <;>
    exact ⟨fun p => by simp, fun p q => by simp⟩

/-- Witness for C10: a concrete build context with no existing publishes. -/
theorem publish_first_version_path_witness :
    Builder.publish
      { asset_publishes := [],
        asset_task := { path := "/task/char.blend", pickle_path := "/task/char.pickle" },
        first_publish_path := "/pub/char.v001.blend",
        asset_collection := "CH-char" } =
      [.mkdirParents "/pub",
       .librariesWrite "/pub/char.v001.blend" ["CH-char"] "RELATIVE_ALL" true] := by
  rw [(publish_first_version_path
    { asset_publishes := [],
      asset_task := { path := "/task/char.blend", pickle_path := "/task/char.pickle" },
      first_publish_path := "/pub/char.v001.blend",
      asset_collection := "CH-char" } rfl).1]
  decide

/-- Helper for C8: whenever the assembly loop raises, the dict it leaves
behind is the cleared (empty) one. -/
theorem assembleConfigs_error_dict (tls : List TaskLayerClass) :
    ∀ dict configs msg d,
      assembleConfigs dict configs tls = .error (msg, d) → d = [] := by
  induction tls with
  | nil =>
      intro dict configs msg d h
      cases h
  | cons tl rest ih =>
      intro dict configs msg d h
      unfold assembleConfigs at h
      split at h
      · injection h with h'
        exact congrArg Prod.snd h' |>.symm
      · exact ih _ _ _ _ h

/-- Helper for C8: a successful assembly loop implies the remaining class
names are pairwise distinct and disjoint from the dict keys built so far. -/
theorem assembleConfigs_ok_nodup (tls : List TaskLayerClass) :
    ∀ dict configs r, assembleConfigs dict configs tls = .ok r →
      (tls.map (fun t => t.cls_name)).Nodup ∧
      ∀ k ∈ dict.map Prod.fst, k ∉ tls.map (fun t => t.cls_name) := by
  induction tls with
  | nil =>
      intro dict configs r _
      exact ⟨List.nodup_nil, by simp⟩
  | cons tl rest ih =>
      intro dict configs r h
      unfold assembleConfigs at h
      split at h
      · cases h
      · rename_i hnot
        obtain ⟨hnd, hk⟩ := ih _ _ _ h
        have htl : tl.cls_name ∉ rest.map (fun t => t.cls_name) :=
          hk tl.cls_name (by simp)
        refine ⟨List.nodup_cons.mpr ⟨htl, hnd⟩, ?_⟩
        intro k hkd
        simp only [List.map_cons, List.mem_cons, not_or]
        obtain ⟨p, hp, hpk⟩ := List.mem_map.mp hkd
        constructor
        · intro heq
          apply hnot
          apply List.any_eq_true.mpr
          exact ⟨p, hp, by simp [hpk, heq]⟩
        · exact hk k (by rw [List.map_append]; exact List.mem_append_left _ hkd)

/-- C8: constructing a `TaskLayerAssembly` from a list that contains two
task-layer classes with the same `__name__` raises, and before raising the
loop clears the partially built config dictionary, so the state left behind
converts to `False` — no partial configuration is ever exposed. -/
theorem assembly_duplicate_name_raises (task_layers : List TaskLayerClass)
    (h : ¬ (task_layers.map (fun t => t.cls_name)).Nodup) :
    ∃ msg, TaskLayerAssembly.init task_layers = .error (msg, []) ∧
      configDictBool [] = false := by
  cases hres : assembleConfigs [] [] task_layers with
  | ok r => exact absurd (assembleConfigs_ok_nodup task_layers [] [] r hres).1 h
  | error e =>
      obtain ⟨msg, d⟩ := e
      have hd : d = [] := assembleConfigs_error_dict task_layers [] [] msg d hres
      subst hd
      refine ⟨msg, ?_, rfl⟩
      unfold TaskLayerAssembly.init
      rw [hres]

/-- Witness for C8: two task-layer classes named `ModelingTaskLayer`. -/
theorem assembly_duplicate_name_raises_witness :
    ¬ (([⟨"ModelingTaskLayer", "Modeling", (0 : Int)⟩,
         ⟨"ModelingTaskLayer", "Modeling Alt", (1 : Int)⟩] :
        List TaskLayerClass).map (fun t => t.cls_name)).Nodup ∧
    ∃ msg, TaskLayerAssembly.init
        [⟨"ModelingTaskLayer", "Modeling", (0 : Int)⟩,
         ⟨"ModelingTaskLayer", "Modeling Alt", (1 : Int)⟩] = .error (msg, []) ∧
      configDictBool [] = false :=
  ⟨by decide, assembly_duplicate_name_raises _ (by decide)⟩

/-- C6: `init_materials` adds a material-slot ownership entry — carrying the
task-layer owner and surrender flag it gets from `get_transfer_data_owner` —
only when `check_transfer_data_entry` finds zero existing entries for the
material channel on the object, and only for object types that can carry
material slots; starting from at most one recorded entry (and a temp list
with none for this object), at most one ownership entry exists afterwards.
Each task layer additionally carries an `is_locked` flag, `False` on a fresh
instance. -/
theorem init_materials_single_owner
    (g : AssetPipe → String → String × Bool) (asset_pipe : AssetPipe) (obj : Obj)
    (hown : (check_transfer_data_entry obj.transfer_data_ownership
        MATERIAL_TRANSFER_DATA_ITEM_NAME MATERIAL_SLOT_KEY).length ≤ 1)
    (htemp : asset_pipe.temp_transfer_data.filter (fun td =>
        td.obj_name == obj.name && td.type == MATERIAL_SLOT_KEY &&
        td.name == MATERIAL_TRANSFER_DATA_ITEM_NAME) = []) :
    materialOwnershipCount (init_materials g asset_pipe obj) obj ≤ 1 ∧
    (0 < (check_transfer_data_entry obj.transfer_data_ownership
        MATERIAL_TRANSFER_DATA_ITEM_NAME MATERIAL_SLOT_KEY).length →
      init_materials g asset_pipe obj = asset_pipe) ∧
    (obj.type ∉ material_objects → init_materials g asset_pipe obj = asset_pipe) ∧
    ((check_transfer_data_entry obj.transfer_data_ownership
        MATERIAL_TRANSFER_DATA_ITEM_NAME MATERIAL_SLOT_KEY).length = 0 ∧
      obj.type ∈ material_objects →
      (init_materials g asset_pipe obj).temp_transfer_data =
        asset_pipe.temp_transfer_data ++
          [{ name := MATERIAL_TRANSFER_DATA_ITEM_NAME,
             owner := (g asset_pipe MATERIAL_SLOT_KEY).1,
             type := MATERIAL_SLOT_KEY, obj_name := obj.name,
             surrender := (g asset_pipe MATERIAL_SLOT_KEY).2 }]) ∧
    TaskLayer.init.is_locked = false := by
  unfold init_materials
  cases hc : material_objects.contains obj.type with
  | false =>
      have hmem : obj.type ∉ material_objects := by
        intro hmem
        have hc' : material_objects.contains obj.type = true := List.elem_iff.mpr hmem
        rw [hc'] at hc
        cases hc
      simp only [hc, Bool.not_false, if_true]
      refine ⟨?_, fun _ => by trivial, fun _ => by trivial, ?_, by trivial⟩
      · unfold materialOwnershipCount
        rw [htemp]
        simpa using hown
      · intro ⟨_, habs⟩
        exact absurd habs hmem
  | true =>
      have hmem : obj.type ∈ material_objects := List.elem_iff.mp hc
      simp only [hc, Bool.not_true, Bool.false_eq_true, if_false]
      cases hlen : ((check_transfer_data_entry obj.transfer_data_ownership
          MATERIAL_TRANSFER_DATA_ITEM_NAME MATERIAL_SLOT_KEY).length == 0) with
      | true =>
          have hlen' : (check_transfer_data_entry obj.transfer_data_ownership
              MATERIAL_TRANSFER_DATA_ITEM_NAME MATERIAL_SLOT_KEY).length = 0 := by
            simpa using hlen
          simp only [hlen, if_true]
          refine ⟨?_, ?_, fun h => absurd hmem h, fun _ => by trivial, by trivial⟩
          · unfold materialOwnershipCount
            simp only [List.filter_append, htemp, hlen', List.nil_append]
            simp
          · intro hpos
            rw [hlen'] at hpos
            exact absurd hpos (by simp)
      | false =>
          simp only [hlen, Bool.false_eq_true, if_false]
          refine ⟨?_, fun _ => by trivial, fun _ => by trivial, ?_, by trivial⟩
          · unfold materialOwnershipCount
            rw [htemp]
            simpa using hown
          · intro ⟨hz, _⟩
            rw [hz] at hlen
            exact absurd hlen (by simp)

/-- Witness for C6: a mesh object with no prior material ownership entry. -/
theorem init_materials_single_owner_witness :
    ((check_transfer_data_entry ([] : List TransferDataItem)
        MATERIAL_TRANSFER_DATA_ITEM_NAME MATERIAL_SLOT_KEY).length ≤ 1) ∧
    (init_materials (fun _ _ => ("Rigging", false))
        { asset_collection := some "CH-char", local_task_layers := ["Rigging"],
          sync_error := false, temp_file := "", source_file := "",
          is_depreciated := false, temp_transfer_data := [] }
        { name := "Suzanne", type := "MESH", transfer_data_ownership := [],
          has_data := true, data_has_materials := true, material_slots := [],
          active_material_index := 0, splines_material_index := [],
          attributes := [], color_attributes := [], active_color_name := "",
          uv_layers := [], active_uv := none }).temp_transfer_data =
      [{ name := MATERIAL_TRANSFER_DATA_ITEM_NAME, owner := "Rigging",
         type := MATERIAL_SLOT_KEY, obj_name := "Suzanne",
         surrender := false }] :=
  ⟨by decide,
   (init_materials_single_owner (fun _ _ => ("Rigging", false)) _ _
      (by decide) (by decide)).2.2.2.1 ⟨by decide, by decide⟩⟩

/-- Helper for C2: copying the material-index attribute never touches the
material slots. -/
theorem transfer_attribute_slots (n : String) (t s : Obj) :
    (transfer_attribute n t s).material_slots = t.material_slots := by
  unfold transfer_attribute
  split <;> rfl

/-- Helper for C2: copying the active color attribute never touches the
material slots. -/
theorem transfer_active_color_slots (s t : Obj) :
    (transfer_active_color_attribute_index s t).material_slots =
      t.material_slots := by
  unfold transfer_active_color_attribute_index
  simp only []
  split
  · rfl
  · split <;> rfl

/-- Helper for C2: copying the active UV layer never touches the material
slots. -/
theorem transfer_active_uv_slots (s t : Obj) :
    (transfer_active_uv_layer_index s t).material_slots = t.material_slots := by
  unfold transfer_active_uv_layer_index
  split
  · rfl
  · split <;> rfl

/-- Helper for C2: `transfer_materials` rebuilds the target's material slots
as exactly the source's. -/
theorem transfer_materials_slots (t s : Obj) :
    (transfer_materials t s).material_slots = s.material_slots := by
  unfold transfer_materials
  simp only []
  rw [transfer_active_uv_slots, transfer_active_color_slots]
  split
  · rw [transfer_attribute_slots]
    split <;> rfl
  · split <;> rfl

/-- C2: during a merge, material data not owned by the transplanted task
layers is preserved: the materials channel rewrites the target's material
slots from the source only when a material transfer-data entry owned by a
transplanted task layer exists (with no owned entry the target object is
returned untouched, and with one the target's slots become exactly the
source's), and `materials_clean` leaves the object's materials untouched
whenever at least one material ownership entry exists for it, clearing them
only when no such entry is found. -/
theorem materials_preserved_unless_owned (local_tls : List String)
    (target_obj source_obj obj : Obj) :
    (((check_transfer_data_entry source_obj.transfer_data_ownership
          MATERIAL_TRANSFER_DATA_ITEM_NAME MATERIAL_SLOT_KEY).any
        (fun td => local_tls.contains td.owner)) = false →
      apply_material_transfer local_tls target_obj source_obj = target_obj) ∧
    (((check_transfer_data_entry source_obj.transfer_data_ownership
          MATERIAL_TRANSFER_DATA_ITEM_NAME MATERIAL_SLOT_KEY).any
        (fun td => local_tls.contains td.owner)) = true →
      (apply_material_transfer local_tls target_obj source_obj).material_slots =
        source_obj.material_slots) ∧
    (0 < (check_transfer_data_entry obj.transfer_data_ownership
        MATERIAL_TRANSFER_DATA_ITEM_NAME MATERIAL_SLOT_KEY).length →
      materials_clean obj = obj) ∧
    ((materials_clean obj).material_slots ≠ obj.material_slots →
      (check_transfer_data_entry obj.transfer_data_ownership
        MATERIAL_TRANSFER_DATA_ITEM_NAME MATERIAL_SLOT_KEY).length = 0 ∧
      (materials_clean obj).material_slots = []) := by
  refine ⟨?_, ?_, ?_, ?_⟩
  · intro h
    unfold apply_material_transfer
    rw [h]
    rfl
  · intro h
    unfold apply_material_transfer
    rw [h]
    simp only [if_true]
    exact transfer_materials_slots target_obj source_obj
  · intro h
    unfold materials_clean
    rw [if_pos (Nat.pos_iff_ne_zero.mp h)]
  · intro hneq
    unfold materials_clean at hneq ⊢
    by_cases hz : (check_transfer_data_entry obj.transfer_data_ownership
        MATERIAL_TRANSFER_DATA_ITEM_NAME MATERIAL_SLOT_KEY).length = 0
    · refine ⟨hz, ?_⟩
      rw [if_neg (by simpa using hz)] at hneq ⊢
      by_cases hd : (obj.has_data && obj.data_has_materials) = true
      · rw [if_pos hd]
      · rw [if_neg hd] at hneq
        exact absurd rfl hneq
    · rw [if_pos hz] at hneq
      exact absurd rfl hneq

/-- Witness for C2: a source object whose material entry is owned by the
transplanted layer rewrites the target's slots; one owned by another layer
leaves the target alone. -/
theorem materials_preserved_unless_owned_witness :
    (((check_transfer_data_entry
          [{ name := MATERIAL_TRANSFER_DATA_ITEM_NAME, owner := "Shading",
             type := MATERIAL_SLOT_KEY, surrender := false }]
          MATERIAL_TRANSFER_DATA_ITEM_NAME MATERIAL_SLOT_KEY).any
        (fun td => (["Shading"] : List String).contains td.owner)) = true) ∧
    (apply_material_transfer ["Shading"]
      { name := "Cube", type := "MESH", transfer_data_ownership := [],
        has_data := true, data_has_materials := true,
        material_slots := [{ material := some "old_mat", link := "DATA" }],
        active_material_index := 0, splines_material_index := [],
        attributes := [], color_attributes := [], active_color_name := "",
        uv_layers := [], active_uv := none }
      { name := "Cube", type := "MESH",
        transfer_data_ownership :=
          [{ name := MATERIAL_TRANSFER_DATA_ITEM_NAME, owner := "Shading",
             type := MATERIAL_SLOT_KEY, surrender := false }],
        has_data := true, data_has_materials := true,
        material_slots := [{ material := some "new_mat", link := "DATA" }],
        active_material_index := 0, splines_material_index := [],
        attributes := [], color_attributes := [], active_color_name := "",
        uv_layers := [], active_uv := none }).material_slots =
      [{ material := some "new_mat", link := "DATA" }] :=
  ⟨by decide,
   by
    rw [(materials_preserved_unless_owned ["Shading"] _ _
      { name := "Cube", type := "MESH", transfer_data_ownership := [],
        has_data := true, data_has_materials := true, material_slots := [],
        active_material_index := 0, splines_material_index := [],
        attributes := [], color_attributes := [], active_color_name := "",
        uv_layers := [], active_uv := none }).2.1 (by decide)]⟩

/-- Helper: field equations extracted from a successful
`sync_execute_prepare_sync`. -/
theorem prepare_success_fields (fst : String → String) (fex : String → Bool)
    (ctx ctx1 : Context) (op op1 : SyncOp) (tr : List SyncEvent)
    (h : sync_execute_prepare_sync fst fex ctx op = (ctx1, op1, tr, false)) :
    op1.task_layer_keys = ctx.asset_pipe.local_task_layers ∧
    op1.current_file = ctx.filepath ∧
    op1.invalid_objs = op.invalid_objs ∧
    op1.sync_target = fst ctx.filepath ∧
    ctx1.objects = ctx.objects.filter (fun o => !op.invalid_objs.contains o) := by
  unfold sync_execute_prepare_sync at h
  simp only [] at h
  split at h
  · simp only [Prod.mk.injEq] at h
    exact absurd h.2.2.2 (by simp)
  · simp only [Prod.mk.injEq] at h
    obtain ⟨hc, ho, -, -⟩ := h
    subst hc
    subst ho
    exact ⟨rfl, rfl, rfl, rfl, rfl⟩

/-- Helper for C1: every merge event the push loop emits uses the complement
of the operator's task-layer keys within the configured task-layer types as
`local_tls`, and the working file as `external_file`. -/
theorem push_loop_merge_events (world : String → PublishFile)
    (mtl : String → List String → String → String)
    (tlt : List String) (op : SyncOp) (tfp : String) :
    ∀ (targets : List String) (ctx : Context) (tls : List String)
      (ext : String) (objs : List String),
      SyncEvent.mergeTaskLayer tls ext objs ∈
          (push_loop world mtl tlt op tfp ctx targets).2.1 →
        tls = tlt.filter (fun t => !op.task_layer_keys.contains t) ∧
        ext = op.current_file := by
  intro targets
  induction targets with
  | nil =>
      intro ctx tls ext objs h
      simp [push_loop] at h
  | cons file rest ih =>
      intro ctx tls ext objs h
      unfold push_loop at h
      simp only [] at h
      split at h
      · simp only [List.mem_cons] at h
        rcases h with h | h
        · exact SyncEvent.noConfusion h
        · exact ih _ _ _ _ h
      · split at h
        · simp only [List.mem_cons, List.not_mem_nil, or_false] at h
          rcases h with h | h | h
          · exact SyncEvent.noConfusion h
          · injection h with h1 h2 h3
            exact ⟨h1, h2⟩
          · exact SyncEvent.noConfusion h
        · simp only [List.mem_cons] at h
          rcases h with h | h | h | h | h
          · exact SyncEvent.noConfusion h
          · injection h with h1 h2 h3
            exact ⟨h1, h2⟩
          · exact SyncEvent.noConfusion h
          · exact SyncEvent.noConfusion h
          · exact ih _ _ _ _ h

/-- C1: after a successful prepare, every merge a pull performs transplants
exactly the working file's local task layers (with the sync target as the
external file), and every merge a push performs transplants exactly the
complement of the working file's local task layers within the configured
task-layer types (with the working file as the external file). -/
theorem merge_transplants_owned_layers_only
    (fst : String → String) (fex : String → Bool)
    (mtl : String → List String → String → String)
    (world : String → PublishFile) (fap : List String)
    (task_layer_types : List String)
    (ctx ctx1 : Context) (op op1 : SyncOp) (tr : List SyncEvent)
    (hprep : sync_execute_prepare_sync fst fex ctx op = (ctx1, op1, tr, false)) :
    (∀ tls ext objs,
      SyncEvent.mergeTaskLayer tls ext objs ∈
          (sync_execute_pull mtl ctx1 op1).2.1 →
        tls = ctx.asset_pipe.local_task_layers ∧ ext = op1.sync_target) ∧
    (∀ tls ext objs,
      SyncEvent.mergeTaskLayer tls ext objs ∈
          (sync_execute_push world fap mtl task_layer_types ctx1 op1).2.1 →
        (∀ t, t ∈ tls ↔
          (t ∈ task_layer_types ∧ t ∉ ctx.asset_pipe.local_task_layers)) ∧
        ext = ctx.filepath) := by
  obtain ⟨hkeys, hcur, -, -, -⟩ :=
    prepare_success_fields fst fex ctx ctx1 op op1 tr hprep
  constructor
  · intro tls ext objs hmem
    unfold sync_execute_pull at hmem
    simp only [] at hmem
    split at hmem
    · simp only [List.mem_cons, List.not_mem_nil, or_false] at hmem
      rcases hmem with h | h | h
      · exact SyncEvent.noConfusion h
      · injection h with h1 h2 h3
        exact ⟨h1.trans hkeys, h2⟩
      · exact SyncEvent.noConfusion h
    · simp only [List.mem_cons, List.not_mem_nil, or_false] at hmem
      rcases hmem with h | h
      · exact SyncEvent.noConfusion h
      · injection h with h1 h2 h3
        exact ⟨h1.trans hkeys, h2⟩
  · intro tls ext objs hmem
    unfold sync_execute_push at hmem
    simp only [] at hmem
    obtain ⟨hfil, hext⟩ := push_loop_merge_events world mtl task_layer_types
      op1 _ _ _ tls ext objs hmem
    refine ⟨?_, hext.trans hcur⟩
    intro t
    subst hfil
    rw [List.mem_filter]
    constructor
    · intro ⟨ht, hp⟩
      refine ⟨ht, ?_⟩
      intro hk
      rw [← hkeys] at hk
      have hc : op1.task_layer_keys.contains t = true := List.elem_iff.mpr hk
      rw [hc] at hp
      cases hp
    · intro ⟨ht, hk⟩
      refine ⟨ht, ?_⟩
      rw [← hkeys] at hk
      cases hc : op1.task_layer_keys.contains t with
      | false => rfl
      | true => exact absurd (List.elem_iff.mp hc) hk

/-- Witness for C1: a successful prepare on a concrete working file, and the
pull's merge event at those inputs transplanting exactly `["Modeling"]`. -/
theorem merge_transplants_owned_layers_only_witness :
    (sync_execute_prepare_sync (fun _ => "/pub/char.v001.blend") (fun _ => true)
        ctxWorking opFresh = (ctxWorking, opPrepared, [], false)) ∧
    (SyncEvent.mergeTaskLayer ["Modeling"] "/pub/char.v001.blend" ["Cube"] ∈
        (sync_execute_pull (fun _ _ _ => "") ctxWorking opPrepared).2.1) ∧
    (["Modeling"] = apWorking.local_task_layers ∧
      "/pub/char.v001.blend" = opPrepared.sync_target) :=
  ⟨by decide, by decide,
   (merge_transplants_owned_layers_only (fun _ => "/pub/char.v001.blend")
      (fun _ => true) (fun _ _ _ => "") worldPlain [] []
      ctxWorking ctxWorking opFresh opPrepared [] (by decide)).1
     ["Modeling"] "/pub/char.v001.blend" ["Cube"] (by decide)⟩

/-- Helper for C7: with no merge errors, the push loop's trace is exactly the
concatenation of the per-file step traces, and the loop is never cancelled. -/
theorem push_loop_trace_ok (world : String → PublishFile)
    (mtl : String → List String → String → String)
    (tlt : List String) (op : SyncOp) (tfp : String)
    (hok : ∀ f tls ext, mtl f tls ext = "") :
    ∀ (targets : List String) (ctx : Context),
      (push_loop world mtl tlt op tfp ctx targets).2.1 =
        (targets.map (pushStepTrace world op tlt)).flatten ∧
      (push_loop world mtl tlt op tfp ctx targets).2.2 = false := by
  intro targets
  induction targets with
  | nil => intro ctx; exact ⟨rfl, rfl⟩
  | cons file rest ih =>
      intro ctx
      unfold push_loop
      simp only []
      split
      · rename_i hdep
        have hdep' : (world file).asset_pipe.is_depreciated = true := hdep
        obtain ⟨h1, h2⟩ := ih _
        refine ⟨?_, h2⟩
        rw [List.map_cons, List.flatten_cons, h1]
        unfold pushStepTrace
        rw [if_pos hdep']
        rfl
      · rename_i hdep
        have hdep' : ¬ ((world file).asset_pipe.is_depreciated = true) := hdep
        split
        · rename_i herr
          rw [hok] at herr
          cases herr
        · obtain ⟨h1, h2⟩ := ih _
          refine ⟨?_, h2⟩
          rw [List.map_cons, List.flatten_cons, h1]
          unfold pushStepTrace
          rw [if_neg hdep']
          simp only [List.cons_append, List.nil_append]
          rfl

/-- C7: with no merge errors, a push processes exactly the published files
found by `find_all_published` — plus the sync target when it was not among
them — opening each with the host's file-load operator; a non-depreciated
publish is then merged, saved with the host's file-save operator, and the
working file is reopened, while a publish whose scene is marked
`is_depreciated` is skipped without being merged or saved. -/
theorem push_processes_all_publishes (world : String → PublishFile)
    (fap : List String) (mtl : String → List String → String → String)
    (tlt : List String) (ctx : Context) (op : SyncOp)
    (hok : ∀ f tls ext, mtl f tls ext = "") :
    (sync_execute_push world fap mtl tlt ctx op).2.1 =
      ((if fap.contains op.sync_target then fap else fap ++ [op.sync_target]).map
          (pushStepTrace world op tlt)).flatten ∧
    (sync_execute_push world fap mtl tlt ctx op).2.2 = false := by
  unfold sync_execute_push
  simp only []
  exact push_loop_trace_ok world mtl tlt op _ hok _ _

/-- Witness for C7: two publishes, the second depreciated; the sync target is
already among the found publishes. -/
theorem push_processes_all_publishes_witness :
    (sync_execute_push worldDepreciated
        ["/pub/char.v001.blend", "/pub/char.v002.blend"]
        (fun _ _ _ => "") ["Modeling", "Rigging"] ctxWorking opPrepared).2.1 =
      [.openMainfile "/pub/char.v001.blend",
       .mergeTaskLayer ["Rigging"] "/w/char.modeling.blend" ["Cube"],
       .saveMainfile "/pub/char.v001.blend",
       .openMainfile "/w/char.modeling.blend",
       .openMainfile "/pub/char.v002.blend"] ∧
    (sync_execute_push worldDepreciated
        ["/pub/char.v001.blend", "/pub/char.v002.blend"]
        (fun _ _ _ => "") ["Modeling", "Rigging"] ctxWorking opPrepared).2.2 =
      false :=
  ⟨by
    rw [(push_processes_all_publishes worldDepreciated
      ["/pub/char.v001.blend", "/pub/char.v002.blend"] (fun _ _ _ => "")
      ["Modeling", "Rigging"] ctxWorking opPrepared (fun _ _ _ => rfl)).1]
    decide,
   (push_processes_all_publishes worldDepreciated
      ["/pub/char.v001.blend", "/pub/char.v002.blend"] (fun _ _ _ => "")
      ["Modeling", "Rigging"] ctxWorking opPrepared (fun _ _ _ => rfl)).2⟩

/-- Helper for C4: field equations from a successful `sync_invoke`. -/
theorem invoke_success_fields
    (og : String → Context → List TempTransferDataItem)
    (gio : AssetPipe → String → List String) (isi : Context → List String)
    (ctx ctx1 : Context) (op op1 : SyncOp) (tr : List SyncEvent)
    (h : sync_invoke og gio isi ctx op = (ctx1, op1, tr, false)) :
    ∃ col, ctx.asset_pipe.asset_collection = some col ∧
      op1.invalid_objs = gio ctx1.asset_pipe col := by
  unfold sync_invoke at h
  simp only [] at h
  split at h
  · rename_i heq
    simp only [Prod.mk.injEq] at h
    exact absurd h.2.2.2 (by simp)
  · rename_i col heq
    have heq' : ctx.asset_pipe.asset_collection = some col := heq
    simp only [Prod.mk.injEq] at h
    obtain ⟨hc, ho, -, -⟩ := h
    subst hc
    subst ho
    exact ⟨col, heq', rfl⟩

/-- C4: the invalid objects computed by `get_invalid_objects` during
`sync_invoke` are all removed from the file by a successful
`sync_execute_prepare_sync`, so no invalid object is present in the file any
merge of the following pull runs on. -/
theorem invalid_objects_removed_before_merge
    (og : String → Context → List TempTransferDataItem)
    (gio : AssetPipe → String → List String) (isi : Context → List String)
    (fst : String → String) (fex : String → Bool)
    (mtl : String → List String → String → String)
    (ctx ctx1 ctx2 : Context) (op op1 op2 : SyncOp)
    (tr1 tr2 : List SyncEvent)
    (hinv : sync_invoke og gio isi ctx op = (ctx1, op1, tr1, false))
    (hprep : sync_execute_prepare_sync fst fex ctx1 op1 = (ctx2, op2, tr2, false)) :
    (∃ col, ctx.asset_pipe.asset_collection = some col ∧
        op1.invalid_objs = gio ctx1.asset_pipe col) ∧
    (∀ o ∈ op1.invalid_objs, o ∉ ctx2.objects) ∧
    (∀ tls ext objs,
      SyncEvent.mergeTaskLayer tls ext objs ∈
          (sync_execute_pull mtl ctx2 op2).2.1 →
        ∀ o ∈ op1.invalid_objs, o ∉ objs) := by
  obtain ⟨-, -, hinvalid, -, hobjs⟩ :=
    prepare_success_fields fst fex ctx1 ctx2 op1 op2 tr2 hprep
  have hnotin : ∀ o ∈ op1.invalid_objs, o ∉ ctx2.objects := by
    intro o ho hmem
    rw [hobjs] at hmem
    have := List.mem_filter.mp hmem
    have hc : op1.invalid_objs.contains o = true := List.elem_iff.mpr ho
    rw [hc] at this
    exact absurd this.2 (by simp)
  refine ⟨invoke_success_fields og gio isi ctx ctx1 op op1 tr1 hinv, hnotin, ?_⟩
  intro tls ext objs hmem o ho
  unfold sync_execute_pull at hmem
  simp only [] at hmem
  split at hmem
  · simp only [List.mem_cons, List.not_mem_nil, or_false] at hmem
    rcases hmem with h | h | h
    · exact SyncEvent.noConfusion h
    · injection h with h1 h2 h3
      have h3' : objs = ctx2.objects := h3
      rw [h3']
      exact hnotin o ho
    · exact SyncEvent.noConfusion h
  · simp only [List.mem_cons, List.not_mem_nil, or_false] at hmem
    rcases hmem with h | h
    · exact SyncEvent.noConfusion h
    · injection h with h1 h2 h3
      have h3' : objs = ctx2.objects := h3
      rw [h3']
      exact hnotin o ho

/-- Witness for C4: the invalid object `BAD` is removed before the pull's
merge, which then only sees `Cube`. -/
theorem invalid_objects_removed_before_merge_witness :
    (sync_invoke (fun _ _ => []) (fun _ _ => ["BAD"]) (fun _ => [])
        ctxWithBad opFresh = (ctxWithBad, opInvoked, [], false)) ∧
    (sync_execute_prepare_sync (fun _ => "/pub/char.v001.blend") (fun _ => true)
        ctxWithBad opInvoked =
      (ctxCleaned, opPreparedBad, [.removeObject "BAD"], false)) ∧
    "BAD" ∉ ctxCleaned.objects :=
  ⟨by decide, by decide,
   (invalid_objects_removed_before_merge (fun _ _ => []) (fun _ _ => ["BAD"])
      (fun _ => []) (fun _ => "/pub/char.v001.blend") (fun _ => true)
      (fun _ _ _ => "") ctxWithBad ctxWithBad ctxCleaned opFresh opInvoked
      opPreparedBad [] [.removeObject "BAD"] (by decide) (by decide)).2.1
     "BAD" (by decide)⟩

/-- Helper for C5: the push loop never emits a backup-copy save event. -/
theorem push_loop_no_backup_save (world : String → PublishFile)
    (mtl : String → List String → String → String)
    (tlt : List String) (op : SyncOp) (tfp : String) :
    ∀ (targets : List String) (ctx : Context) (e : SyncEvent),
      e ∈ (push_loop world mtl tlt op tfp ctx targets).2.1 →
        e.isSaveCopy = false := by
  intro targets
  induction targets with
  | nil =>
      intro ctx e h
      simp [push_loop] at h
  | cons file rest ih =>
      intro ctx e h
      unfold push_loop at h
      simp only [] at h
      split at h
      · simp only [List.mem_cons] at h
        rcases h with h | h
        · subst h; rfl
        · exact ih _ _ h
      · split at h
        · simp only [List.mem_cons, List.not_mem_nil, or_false] at h
          rcases h with h | h | h <;> (subst h; rfl)
        · simp only [List.mem_cons] at h
          rcases h with h | h | h | h | h
          · subst h; rfl
          · subst h; rfl
          · subst h; rfl
          · subst h; rfl
          · exact ih _ _ h

/-- Helper for C5: when the push loop is cancelled, the in-memory scene has
`sync_error` set and the trace ends at the error report of the failing merge
— in particular the failing publish is never saved. -/
theorem push_loop_cancel_shape (world : String → PublishFile)
    (mtl : String → List String → String → String)
    (tlt : List String) (op : SyncOp) (tfp : String) :
    ∀ (targets : List String) (ctx : Context),
      (push_loop world mtl tlt op tfp ctx targets).2.2 = true →
      (push_loop world mtl tlt op tfp ctx targets).1.asset_pipe.sync_error = true ∧
      ∃ tr' f tls objs msg,
        (push_loop world mtl tlt op tfp ctx targets).2.1 =
          tr' ++ [.openMainfile f, .mergeTaskLayer tls op.current_file objs,
                  .report "ERROR" msg] ∧
        msg ≠ "" := by
  intro targets
  induction targets with
  | nil =>
      intro ctx h
      cases h
  | cons file rest ih =>
      intro ctx h
      unfold push_loop at h ⊢
      simp only [] at h ⊢
      split at h <;> split
      · rename_i hdep hdep2
        obtain ⟨hsync, tr', f, tls, objs, msg, htr, hmsg⟩ := ih _ h
        refine ⟨hsync, .openMainfile file :: tr', f, tls, objs, msg, ?_, hmsg⟩
        simp only [List.cons_append]
        rw [← htr]
      · rename_i hdep hdep2
        exact absurd hdep hdep2
      · rename_i hdep hdep2
        exact absurd hdep2 hdep
      · rename_i hdep hdep2
        split at h <;> split
        · rename_i herr herr2
          refine ⟨rfl, [], file, _, _, _, rfl, ?_⟩
          intro hmsg
          rw [hmsg] at herr
          cases herr
        · rename_i herr herr2
          exact absurd herr herr2
        · rename_i herr herr2
          exact absurd herr2 herr
        · rename_i herr herr2
          obtain ⟨hsync, htail⟩ := ih _ h
          obtain ⟨tr', f, tls, objs, msg, htr, hmsg⟩ := htail
          refine ⟨hsync,
            .openMainfile file ::
              .mergeTaskLayer (tlt.filter (fun t => !op.task_layer_keys.contains t))
                op.current_file
                (update_temp_file_paths (openFile world ctx.tempdir_parent file)
                  op tfp).objects ::
              .saveMainfile file :: .openMainfile op.current_file :: tr',
            f, tls, objs, msg, ?_, hmsg⟩
          simp only [List.cons_append]
          rw [← htr]

/-- C5 (amended): when a pull's merge returns a non-empty error message, the
pull sets `sync_error`, reports the message and is cancelled without any
save, and the backup copy of the working file was saved before the merge was
attempted (the trace is exactly backup save, merge, error report); a push
whose merge fails likewise sets `sync_error`, reports, and is cancelled with
the failing publish unsaved — but `sync_execute_push` itself saves no backup
copy at all: it only computes and records the backup path. -/
theorem merge_error_cancels_without_save
    (mtl : String → List String → String → String)
    (world : String → PublishFile) (fap : List String) (tlt : List String)
    (ctx : Context) (op : SyncOp)
    (hpullerr : mtl ctx.filepath op.task_layer_keys op.sync_target ≠ "") :
    ((sync_execute_pull mtl ctx op).2.2 = true ∧
     (sync_execute_pull mtl ctx op).1.asset_pipe.sync_error = true ∧
     (sync_execute_pull mtl ctx op).2.1 =
       [.saveMainfileCopy (create_temp_file_backup ctx op).2,
        .mergeTaskLayer op.task_layer_keys op.sync_target ctx.objects,
        .report "ERROR" (mtl ctx.filepath op.task_layer_keys op.sync_target)]) ∧
    ((∀ e ∈ (sync_execute_push world fap mtl tlt ctx op).2.1,
        e.isSaveCopy = false) ∧
     ((sync_execute_push world fap mtl tlt ctx op).2.2 = true →
       (sync_execute_push world fap mtl tlt ctx op).1.asset_pipe.sync_error
           = true ∧
       ∃ tr' f tls objs msg,
         (sync_execute_push world fap mtl tlt ctx op).2.1 =
           tr' ++ [.openMainfile f, .mergeTaskLayer tls op.current_file objs,
                   .report "ERROR" msg] ∧
         msg ≠ "")) := by
  have hie : (mtl ctx.filepath op.task_layer_keys op.sync_target).isEmpty
      = false := by
    cases hie : (mtl ctx.filepath op.task_layer_keys op.sync_target).isEmpty with
    | false => rfl
    | true => exact absurd ((String.isEmpty_iff _).mp hie) hpullerr
  refine ⟨?_, ?_, ?_⟩
  · unfold sync_execute_pull
    simp only []
    split
    · exact ⟨rfl, rfl, rfl⟩
    · rename_i hcond
      have hcond' :
          ¬ ((!(mtl ctx.filepath op.task_layer_keys op.sync_target).isEmpty)
            = true) := hcond
      rw [hie] at hcond'
      exact absurd rfl hcond'
  · intro e he
    unfold sync_execute_push at he
    simp only [] at he
    exact push_loop_no_backup_save world mtl tlt op _ _ _ e he
  · intro hcancel
    unfold sync_execute_push at hcancel ⊢
    simp only [] at hcancel ⊢
    exact push_loop_cancel_shape world mtl tlt op _ _ _ hcancel

/-- Counterexample for C5 as stated: a push whose merge fails is cancelled,
yet its full event trace contains no backup-copy save — `sync_execute_push`
never saved a backup of the working file before attempting the merge. -/
theorem push_backup_never_saved_counterexample :
    (sync_execute_push worldPlain ["/pub/char.v001.blend"]
        (fun _ _ _ => "Merge Failed") ["Modeling", "Rigging"]
        ctxWorking opPrepared).2.2 = true ∧
    ((sync_execute_push worldPlain ["/pub/char.v001.blend"]
        (fun _ _ _ => "Merge Failed") ["Modeling", "Rigging"]
        ctxWorking opPrepared).2.1.all (fun e => !e.isSaveCopy)) = true := by
  constructor <;> decide

/-- Witness for C5: a failing pull at concrete inputs saves the backup copy
first, merges, reports the error, and is cancelled with `sync_error` set. -/
theorem merge_error_cancels_without_save_witness :
    (("Merge Failed" : String) ≠ "") ∧
    ((sync_execute_pull (fun _ _ _ => "Merge Failed") ctxWorking
        opPrepared).2.2 = true ∧
     (sync_execute_pull (fun _ _ _ => "Merge Failed") ctxWorking
        opPrepared).1.asset_pipe.sync_error = true ∧
     (sync_execute_pull (fun _ _ _ => "Merge Failed") ctxWorking
        opPrepared).2.1 =
       [.saveMainfileCopy "/tmp/char.modeling_Asset_Pipe_Backup.blend",
        .mergeTaskLayer ["Modeling"] "/pub/char.v001.blend" ["Cube"],
        .report "ERROR" "Merge Failed"]) := by
  have h := (merge_error_cancels_without_save
    (fun _ _ _ => "Merge Failed") worldPlain [] [] ctxWorking opPrepared
    (by decide)).1
  refine ⟨by decide, h.1, h.2.1, ?_⟩
  rw [h.2.2]
  decide
